import Mathlib

/-!
Verification of the session-authentication endpoint
(`src/sentry/api/endpoints/auth_index.py`, class `AuthIndexEndpoint`).

The endpoint is embedded shallowly: each HTTP verb handler becomes a pure
Lean function from a request state (and a `World` bundling the external
collaborators) to a response, the updated request state where the handler
mutates it, and a trace of the SessionManager-level side-effect calls
(`login`, `grant_sudo_privileges` / elevate, `logout`) plus the stored
password comparison (`check_password`).

External collaborators that the file only calls (the two-factor registry,
JSON parsing, the serializer, the password checker) are abstracted as
function fields of `World` / `User`, so every theorem quantifies over all
of their behaviours.  Collaborators whose behaviour the endpoint relies on
(`sentry.utils.auth.login`, `sudo.utils.grant_sudo_privileges`,
`django.contrib.auth.logout`) are not under `src/`; they are modelled from
the spec's collaborator contracts (see their doc comments).
-/

namespace Sentry

/-- An opaque parsed-JSON value, as produced by `sentry.utils.json.loads`.
The endpoint never inspects the parsed structure; it only forwards it to
`validate_response`. -/
abbrev Json := String

/-- Result of calling `interface.validate_response(request, challenge, response)`
(auth_index.py line 125).  Besides returning a boolean, the collaborator may
raise `ValueError` or `LookupError`; both are caught by the surrounding
`try` block (lines 118-129). -/
inductive FactorResult where
  | ok (b : Bool)
  | valueError
  | lookupError
deriving DecidableEq

/-- A user principal.  `is_authenticated` models Django's
`user.is_authenticated()` (line 40/69/107), `check_password` models
`request.user.check_password(...)` (line 133), `password_expired` is the
policy flag that makes `sentry.utils.auth.login` raise
`AuthUserPasswordExpired` (lines 86, 144). -/
structure User where
  id : Nat
  is_superuser : Bool
  is_authenticated : Bool
  password_expired : Bool
  check_password : String → Bool

/-- Django's `AnonymousUser()` (line 165): not
authenticated, not superuser, no valid password. -/
def AnonymousUser : User :=
  { id := 0
    is_superuser := false
    is_authenticated := false
    password_expired := false
    check_password := fun _ => false }

/-- The underlying Django request `request._request`: carries the session's
bound user and the sudo flag. -/
structure RealRequest where
  user : User
  privilege_elevated : Bool

/-- The DRF request seen by the handlers: `request.user` plus the wrapped
`request._request`. -/
structure Request where
  user : User
  real : RealRequest

/-- The `u2f` authenticator interface returned by
`Authenticator.objects.get_interface(request.user, 'u2f')` (line 119). -/
structure U2fInterface where
  is_enrolled : Bool
  validate_response : Request → Json → Json → FactorResult

/-- The two-factor registry `Authenticator.objects` (lines 74, 119).
`get_interface_u2f` returns `none` where the registry raises
`LookupError`. -/
structure Authenticators where
  user_has_2fa : User → Bool
  get_interface_u2f : User → Option U2fInterface

/-- The bundle of external collaborators the endpoint calls but does not
own: the two-factor registry, `sentry.utils.json.loads` (`none` models a
raised `ValueError`) and the serializer `serialize(user, user)`
(line 44). -/
structure World where
  authenticators : Authenticators
  json_loads : String → Option Json
  serialize : User → User → String

/-- Side-effect calls the handlers make on the session collaborators,
recorded in order. -/
inductive Event where
  | login
  | elevate
  | logout
  | checkPassword
deriving DecidableEq

/-- Response bodies produced by the endpoint, one constructor per distinct
literal shape in the source. -/
inductive Body where
  | empty
  | identityView (data : String) (isSuperuser : Bool)
  | twoFaRequired (flag : Bool) (message : String)
  | validationErrors
  | detailIgnore
  | passwordExpiredMsg (message : String)
  | passwordExpiredCode (code : String) (message : String)
deriving DecidableEq

/-- An HTTP response: status code plus body. -/
structure Response where
  status : Nat
  body : Body
deriving DecidableEq

/-- A Python exception escaping the handler uncaught.  The only one the
embedded code can raise is the `KeyError` from the unguarded
`validator.object['password']` access (line 133). -/
inductive PyExc where
  | keyError (key : String)
deriving DecidableEq

/-- The dict `validator.object` of the PUT payload: each key present or
absent.  `'challenge' in validator.object` is `challenge.isSome`, and
`validator.object['password']` raises `KeyError` when `password = none`. -/
structure Payload where
  challenge : Option String
  response : Option String
  password : Option String

/-- Modelled from the spec: `sentry.utils.auth.login(request, user)` is not
under `src/`.  Per the collaborator contract
`SessionManager.login(context, identity) -> () | raises PasswordExpired`,
it raises `AuthUserPasswordExpired` when the identity's password has
expired and otherwise binds the identity to the session
(`request._request.user` becomes the logged-in user). -/
def auth_login (real : RealRequest) (user : User) : Except Unit RealRequest :=
  if user.password_expired then .error () else .ok { real with user := user }

/-- Modelled from the spec: `sudo.utils.grant_sudo_privileges(request)` is
not under `src/`.  Per the collaborator contract
`SessionManager.elevatePrivilege(context)`, it marks the session's
privilege as elevated. -/
def grant_sudo_privileges (real : RealRequest) : RealRequest :=
  { real with privilege_elevated := true }

/-- Modelled from the spec: `django.contrib.auth.logout(request)` is not
under `src/`.  Per the collaborator contract `SessionManager.logout`, the
session identity is reset to anonymous (and with it any elevated flag held
in the session). -/
def session_logout (_real : RealRequest) : RealRequest :=
  { user := AnonymousUser, privilege_elevated := false }

/-- Helper `extract_lazy_object` (line 43) merely unwraps Django's lazy proxy. -/
def extract_lazy_object (u : User) : User := u

namespace AuthIndexEndpoint

/-- Handler `AuthIndexEndpoint.get` (lines 39-51): 400 when the session user is not
authenticated, otherwise the serialized identity view with `isSuperuser`
copied from the user's superuser bit.  The handler performs no session
mutation and makes no SessionManager call, hence the empty trace. -/
def get (w : World) (request : Request) : Response × List Event :=
  if !request.user.is_authenticated then
    (⟨400, .empty⟩, [])
  else
    let user := extract_lazy_object request.real.user
    let data := w.serialize user user
    (⟨200, .identityView data user.is_superuser⟩, [])

/-- Handler `AuthIndexEndpoint.post` (lines 53-96): 400 when not authenticated,
403 with `2fa_required: true` when the user has any enrolled two-factor
mechanism, 403 password-expired when `auth.login` raises, otherwise
refresh `request.user` from `request._request.user` and return
`self.get(request)`. -/
def post (w : World) (request : Request) : Response × Request × List Event :=
  if !request.user.is_authenticated then
    (⟨400, .empty⟩, request, [])
  else if w.authenticators.user_has_2fa request.user then
    (⟨403, .twoFaRequired true "Cannot sign-in with basic auth when 2fa is enabled."⟩,
      request, [])
  else
    match auth_login request.real request.user with
    | .error _ =>
      (⟨403, .passwordExpiredMsg "Cannot sign-in with basic auth because password has expired."⟩,
        request, [.login])
    | .ok real2 =>
      let request2 : Request := { user := real2.user, real := real2 }
      let g := get w request2
      (g.1, request2, [.login] ++ g.2)

/-- The `try` block of `AuthIndexEndpoint.put` (lines 117-129): look up the
`u2f` interface (a failed lookup raises `LookupError`), raise `LookupError`
when not enrolled, parse challenge and response with `json.loads` (a parse
failure raises `ValueError`), then delegate to `validate_response`.
`ValueError` and `LookupError` are caught and leave `authenticated`
at `False`. -/
def putFactorAuth (w : World) (request : Request) (c r : String) : Bool :=
  match w.authenticators.get_interface_u2f request.user with
  | none => false
  | some interface =>
    if !interface.is_enrolled then
      false
    else
      match w.json_loads c with
      | none => false
      | some challenge =>
        match w.json_loads r with
        | none => false
        | some response2 =>
          match interface.validate_response request challenge response2 with
          | .ok b => b
          | .valueError => false
          | .lookupError => false

/-- The credential dispatch of `put` (lines 114-133): the factor branch is
taken exactly when both `challenge` and `response` keys are present,
otherwise the password branch performs the unguarded dict access
`validator.object['password']`, which raises `KeyError` when the key is
absent, and compares via `check_password` otherwise. -/
def putCredential (w : World) (request : Request) (p : Payload) :
    Except PyExc (Bool × List Event) :=
  match p.challenge, p.response with
  | some c, some r => .ok (putFactorAuth w request c r, [])
  | _, _ =>
    match p.password with
    | none => .error (.keyError "password")
    | some pw => .ok (request.user.check_password pw, [.checkPassword])

/-- The tail of `put` after successful credential verification
(lines 139-155): `auth.login` (which may raise `AuthUserPasswordExpired`,
answered with the 403 password-expired shape), then
`grant_sudo_privileges`, then refresh `request.user` and return
`self.get(request)`. -/
def putFinish (w : World) (request : Request) (ev : List Event) :
    Response × Request × List Event :=
  match auth_login request.real request.user with
  | .error _ =>
    (⟨403, .passwordExpiredCode "password-expired"
        "Cannot sign-in with basic auth because password has expired."⟩,
      request, ev ++ [.login])
  | .ok real2 =>
    let real3 := grant_sudo_privileges real2
    let request2 : Request := { user := real3.user, real := real3 }
    let g := get w request2
    (g.1, request2, ev ++ [.login, .elevate] ++ g.2)

/-- Handler `AuthIndexEndpoint.put` (lines 98-155).  Input `valid` is the result of
`AuthVerifyValidator(data=request.DATA).is_valid()`; the validator class is
an external collaborator, so its acceptance is a parameter and every
theorem quantifies over it.  401 when not authenticated, 400 with the
validator errors when invalid, then credential dispatch, the 403
ignore-coded response when not authenticated by the credentials, and the
login/elevate tail on success. -/
def put (w : World) (request : Request) (valid : Bool) (p : Payload) :
    Except PyExc (Response × Request) × List Event :=
  if !request.user.is_authenticated then
    (.ok (⟨401, .empty⟩, request), [])
  else if !valid then
    (.ok (⟨400, .validationErrors⟩, request), [])
  else
    match putCredential w request p with
    | .error e => (.error e, [])
    | .ok (authenticated, ev) =>
      if !authenticated then
        (.ok (⟨403, .detailIgnore⟩, request), ev)
      else
        let f := putFinish w request ev
        (.ok (f.1, f.2.1), f.2.2)

/-- Handler `AuthIndexEndpoint.delete` (lines 157-166): logout the session, reset
`request.user` to `AnonymousUser()`, respond 204 with no content. -/
def delete (request : Request) : Response × Request × List Event :=
  let real2 := session_logout request.real
  let request2 : Request := { user := AnonymousUser, real := real2 }
  (⟨204, .empty⟩, request2, [.logout])

end AuthIndexEndpoint

/-! Concrete fixtures used by the witness theorems. -/

/-- A fixture user: authenticated, not a superuser, password not expired,
stored password `secret`. -/
def wUser : User :=
  { id := 1
    is_superuser := false
    is_authenticated := true
    password_expired := false
    check_password := fun pw => pw == "secret" }

/-- Fixture underlying request bound to `wUser`, not elevated. -/
def wReal : RealRequest := { user := wUser, privilege_elevated := false }

/-- Fixture DRF request for `wUser`. -/
def wReq : Request := { user := wUser, real := wReal }

/-- Fixture request for an anonymous session. -/
def anonReq : Request :=
  { user := AnonymousUser
    real := { user := AnonymousUser, privilege_elevated := false } }

/-- Fixture u2f interface: enrolled, accepts every response. -/
def wInterface : U2fInterface :=
  { is_enrolled := true, validate_response := fun _ _ _ => .ok true }

/-- Fixture world: no user has 2fa, the u2f interface is `wInterface`,
`json_loads` parses exactly the string `x`, serialization is the constant
view `view`. -/
def wWorld : World :=
  { authenticators :=
      { user_has_2fa := fun _ => false
        get_interface_u2f := fun _ => some wInterface }
    json_loads := fun s => if s == "x" then some s else none
    serialize := fun _ _ => "view" }

/-! Shared branch-equation lemmas for the handlers. -/

/-- GET makes no SessionManager call on any input. -/
theorem get_trace_nil (w : World) (req : Request) :
    (AuthIndexEndpoint.get w req).2 = [] := by
  unfold AuthIndexEndpoint.get
  split <;> rfl

/-- GET on an unauthenticated session user. -/
theorem get_eq_of_unauth (w : World) (req : Request)
    (h : req.user.is_authenticated = false) :
    AuthIndexEndpoint.get w req = (⟨400, .empty⟩, []) := by
  unfold AuthIndexEndpoint.get
  simp [h]

/-- GET on an authenticated session user serializes the underlying
request's bound user. -/
theorem get_eq_of_auth (w : World) (req : Request)
    (h : req.user.is_authenticated = true) :
    AuthIndexEndpoint.get w req =
      (⟨200, .identityView (w.serialize req.real.user req.real.user)
          req.real.user.is_superuser⟩, []) := by
  unfold AuthIndexEndpoint.get extract_lazy_object
  simp [h]

/-- PUT on an authenticated session user with a validator-accepted payload
reduces to the credential dispatch followed by the finish step. -/
theorem put_eq_of_auth (w : World) (req : Request) (p : Payload)
    (h : req.user.is_authenticated = true) :
    AuthIndexEndpoint.put w req true p =
      match AuthIndexEndpoint.putCredential w req p with
      | .error e => (.error e, [])
      | .ok (authenticated, ev) =>
        if !authenticated then
          (.ok (⟨403, .detailIgnore⟩, req), ev)
        else
          let f := AuthIndexEndpoint.putFinish w req ev
          (.ok (f.1, f.2.1), f.2.2) := by
  unfold AuthIndexEndpoint.put
  simp [h]

/-- PUT on an unauthenticated session user answers 401 untouched. -/
theorem put_eq_of_unauth (w : World) (req : Request) (valid : Bool) (p : Payload)
    (h : req.user.is_authenticated = false) :
    AuthIndexEndpoint.put w req valid p = (.ok (⟨401, .empty⟩, req), []) := by
  unfold AuthIndexEndpoint.put
  simp [h]

/-- PUT on an authenticated session user with a validator-rejected payload
answers 400 with the validation errors. -/
theorem put_eq_of_invalid (w : World) (req : Request) (p : Payload)
    (h : req.user.is_authenticated = true) :
    AuthIndexEndpoint.put w req false p = (.ok (⟨400, .validationErrors⟩, req), []) := by
  unfold AuthIndexEndpoint.put
  simp [h]

/-- The credential dispatch raises exactly when the payload lacks the
`challenge`/`response` pair as well as the `password` key, and then the
exception is the `KeyError` on `password`. -/
theorem putCredential_error_iff (w : World) (req : Request) (p : Payload)
    (e : PyExc) :
    AuthIndexEndpoint.putCredential w req p = .error e ↔
      e = .keyError "password" ∧ p.password = none ∧
        (p.challenge = none ∨ p.response = none) := by
  unfold AuthIndexEndpoint.putCredential
  rcases hcp : p.challenge with _ | c0 <;> rcases hcr : p.response with _ | r0 <;>
    rcases hpw : p.password with _ | pw0 <;> simp [eq_comm]

/-- The credential dispatch emits at most a `checkPassword` event: never
`login` or `elevate`. -/
theorem putCredential_trace (w : World) (req : Request) (p : Payload)
    (b : Bool) (ev : List Event)
    (h : AuthIndexEndpoint.putCredential w req p = .ok (b, ev)) :
    ev = [] ∨ ev = [Event.checkPassword] := by
  unfold AuthIndexEndpoint.putCredential at h
  rcases hc : p.challenge with _ | c <;> rcases hr : p.response with _ | r <;>
    rcases hp : p.password with _ | pw <;>
    simp [hc, hr, hp] at h <;> simp [h]

/-- The finish step when `auth.login` raises `AuthUserPasswordExpired`. -/
theorem putFinish_expired (w : World) (req : Request) (ev : List Event)
    (h : req.user.password_expired = true) :
    AuthIndexEndpoint.putFinish w req ev =
      (⟨403, .passwordExpiredCode "password-expired"
          "Cannot sign-in with basic auth because password has expired."⟩,
        req, ev ++ [.login]) := by
  unfold AuthIndexEndpoint.putFinish auth_login
  simp [h]

/-- The finish step when `auth.login` succeeds: login, elevate, refresh the
request, answer with GET on the refreshed request. -/
theorem putFinish_ok (w : World) (req : Request) (ev : List Event)
    (h : req.user.password_expired = false) :
    AuthIndexEndpoint.putFinish w req ev =
      ((AuthIndexEndpoint.get w
          { user := req.user, real := { user := req.user, privilege_elevated := true } }).1,
        { user := req.user, real := { user := req.user, privilege_elevated := true } },
        ev ++ [.login, .elevate] ++
          (AuthIndexEndpoint.get w
            { user := req.user, real := { user := req.user, privilege_elevated := true } }).2) := by
  unfold AuthIndexEndpoint.putFinish auth_login grant_sudo_privileges
  simp [h]

/-- C2: a request whose session user is not authenticated gets a 400 from
GET and a 401 from PUT, with no state change (the returned request is the
input request) and no SessionManager call (empty trace). -/
theorem c2_unauthenticated_get_put (w : World) (req : Request)
    (h : req.user.is_authenticated = false) (valid : Bool) (p : Payload) :
    AuthIndexEndpoint.get w req = (⟨400, .empty⟩, []) ∧
    AuthIndexEndpoint.put w req valid p = (.ok (⟨401, .empty⟩, req), []) := by
  constructor
  · unfold AuthIndexEndpoint.get
    simp [h]
  · unfold AuthIndexEndpoint.put
    simp [h]

/-- C2 witness: the anonymous fixture request hits both failure responses. -/
theorem c2_witness :
    AuthIndexEndpoint.get wWorld anonReq = (⟨400, .empty⟩, []) ∧
    AuthIndexEndpoint.put wWorld anonReq true ⟨none, none, none⟩ =
      (.ok (⟨401, .empty⟩, anonReq), []) :=
  c2_unauthenticated_get_put wWorld anonReq rfl true ⟨none, none, none⟩

/-- C3: an authenticated POST for a user with any enrolled two-factor
mechanism always answers 403 with the `2fa_required: true` body, leaves the
request unchanged and never calls `SessionManager.login` (no `login` event
in the trace), regardless of every other collaborator behaviour. -/
theorem c3_post_2fa_required (w : World) (req : Request)
    (hauth : req.user.is_authenticated = true)
    (h2fa : w.authenticators.user_has_2fa req.user = true) :
    AuthIndexEndpoint.post w req =
      (⟨403, .twoFaRequired true "Cannot sign-in with basic auth when 2fa is enabled."⟩,
        req, []) ∧
    Event.login ∉ (AuthIndexEndpoint.post w req).2.2 := by
  have hpost : AuthIndexEndpoint.post w req =
      (⟨403, .twoFaRequired true "Cannot sign-in with basic auth when 2fa is enabled."⟩,
        req, []) := by
    unfold AuthIndexEndpoint.post
    simp [hauth, h2fa]
  exact ⟨hpost, by simp [hpost]⟩

/-- Fixture world in which every user has 2fa enabled. -/
def wWorld2fa : World :=
  { wWorld with
      authenticators := { wWorld.authenticators with user_has_2fa := fun _ => true } }

/-- C3 witness: the fixture user with 2fa enabled is refused by POST. -/
theorem c3_witness :
    AuthIndexEndpoint.post wWorld2fa wReq =
      (⟨403, .twoFaRequired true "Cannot sign-in with basic auth when 2fa is enabled."⟩,
        wReq, []) ∧
    Event.login ∉ (AuthIndexEndpoint.post wWorld2fa wReq).2.2 :=
  c3_post_2fa_required wWorld2fa wReq rfl rfl

/-- C1: the sudo elevation `grant_sudo_privileges` is called exactly once
on every successful PUT (one `elevate` event in the trace), never on a
failed PUT (no 200 response, including the uncaught-exception case), and
never by GET, POST or DELETE. -/
theorem c1_elevate_exactly_on_put_success :
    (∀ (w : World) (req : Request) (valid : Bool) (p : Payload),
      ((∃ r st, (AuthIndexEndpoint.put w req valid p).1 = .ok (r, st) ∧ r.status = 200) →
        (AuthIndexEndpoint.put w req valid p).2.count Event.elevate = 1) ∧
      ((∀ r st, (AuthIndexEndpoint.put w req valid p).1 = .ok (r, st) → r.status ≠ 200) →
        Event.elevate ∉ (AuthIndexEndpoint.put w req valid p).2)) ∧
    (∀ (w : World) (req : Request), Event.elevate ∉ (AuthIndexEndpoint.get w req).2) ∧
    (∀ (w : World) (req : Request), Event.elevate ∉ (AuthIndexEndpoint.post w req).2.2) ∧
    (∀ (req : Request), Event.elevate ∉ (AuthIndexEndpoint.delete req).2.2) := by
  refine ⟨fun w req valid p => ?_, fun w req => by simp [get_trace_nil],
    fun w req => ?_, fun req => by simp [AuthIndexEndpoint.delete]⟩
  · -- the PUT conjunct
    cases hA : req.user.is_authenticated with
    | false =>
      have hput : AuthIndexEndpoint.put w req valid p = (.ok (⟨401, .empty⟩, req), []) := by
        unfold AuthIndexEndpoint.put
        simp [hA]
      rw [hput]
      constructor
      · rintro ⟨r, st, hr, hs⟩
        simp only [Except.ok.injEq, Prod.mk.injEq] at hr
        rw [← hr.1] at hs
        exact absurd hs (by decide)
      · intro _
        simp
    | true =>
      cases valid with
      | false =>
        have hput : AuthIndexEndpoint.put w req false p =
            (.ok (⟨400, .validationErrors⟩, req), []) := by
          unfold AuthIndexEndpoint.put
          simp [hA]
        rw [hput]
        constructor
        · rintro ⟨r, st, hr, hs⟩
          simp only [Except.ok.injEq, Prod.mk.injEq] at hr
          rw [← hr.1] at hs
          exact absurd hs (by decide)
        · intro _
          simp
      | true =>
        cases hC : AuthIndexEndpoint.putCredential w req p with
        | error e =>
          have hput : AuthIndexEndpoint.put w req true p = (.error e, []) := by
            rw [put_eq_of_auth w req p hA, hC]
          rw [hput]
          constructor
          · rintro ⟨r, st, hr, hs⟩
            simp at hr
          · intro _
            simp
        | ok be =>
          obtain ⟨b, ev⟩ := be
          have hev := putCredential_trace w req p b ev hC
          cases b with
          | false =>
            have hput : AuthIndexEndpoint.put w req true p =
                (.ok (⟨403, .detailIgnore⟩, req), ev) := by
              rw [put_eq_of_auth w req p hA, hC]
              rfl
            rw [hput]
            constructor
            · rintro ⟨r, st, hr, hs⟩
              simp only [Except.ok.injEq, Prod.mk.injEq] at hr
              rw [← hr.1] at hs
              exact absurd hs (by decide)
            · intro _
              rcases hev with hev | hev <;> simp [hev]
          | true =>
            have hput : AuthIndexEndpoint.put w req true p =
                (.ok ((AuthIndexEndpoint.putFinish w req ev).1,
                  (AuthIndexEndpoint.putFinish w req ev).2.1),
                  (AuthIndexEndpoint.putFinish w req ev).2.2) := by
              rw [put_eq_of_auth w req p hA, hC]
              rfl
            rw [hput]
            cases hE : req.user.password_expired with
            | true =>
              rw [putFinish_expired w req ev hE]
              constructor
              · rintro ⟨r, st, hr, hs⟩
                simp only [Except.ok.injEq, Prod.mk.injEq] at hr
                rw [← hr.1] at hs
                exact absurd hs (by decide)
              · intro _
                rcases hev with hev | hev <;> simp [hev]
            | false =>
              rw [putFinish_ok w req ev hE,
                get_eq_of_auth w
                  { user := req.user, real := { user := req.user, privilege_elevated := true } }
                  hA]
              constructor
              · intro _
                rcases hev with hev | hev <;> simp [hev, List.count_append]
              · intro hall
                exact absurd rfl (hall _ _ rfl)
  · -- POST never elevates
    unfold AuthIndexEndpoint.post
    cases hA : req.user.is_authenticated with
    | false => simp
    | true =>
      cases h2 : w.authenticators.user_has_2fa req.user with
      | true => simp
      | false =>
        unfold auth_login
        cases hE : req.user.password_expired with
        | true => simp [hE]
        | false => simp [hE, get_trace_nil]

/-- C1 witness: on the fixture world a password PUT succeeds and its trace
contains exactly one elevation. -/
theorem c1_witness :
    (AuthIndexEndpoint.put wWorld wReq true ⟨none, none, some "secret"⟩).2.count
      Event.elevate = 1 :=
  (c1_elevate_exactly_on_put_success.1 wWorld wReq true ⟨none, none, some "secret"⟩).1
    ⟨⟨200, .identityView "view" false⟩,
      { user := wUser, real := { user := wUser, privilege_elevated := true } },
      rfl, rfl⟩

/-- C4: a PUT payload carrying both `challenge` and `response` takes the
factor-verification path: the stored-password comparison never runs (no
`checkPassword` event), the outcome is unchanged when a `password` field is
dropped from the payload, and on an authenticated session a failed factor
verification yields the 403 ignore-coded response. -/
theorem c4_factor_path_priority (w : World) (req : Request) (p : Payload)
    (c r : String) (hc : p.challenge = some c) (hr : p.response = some r) :
    Event.checkPassword ∉ (AuthIndexEndpoint.put w req true p).2 ∧
    AuthIndexEndpoint.put w req true p =
      AuthIndexEndpoint.put w req true ⟨some c, some r, none⟩ ∧
    (req.user.is_authenticated = true →
      AuthIndexEndpoint.putFactorAuth w req c r = false →
      (AuthIndexEndpoint.put w req true p).1 = .ok (⟨403, .detailIgnore⟩, req)) := by
  have hcred : AuthIndexEndpoint.putCredential w req p =
      .ok (AuthIndexEndpoint.putFactorAuth w req c r, []) := by
    unfold AuthIndexEndpoint.putCredential
    simp [hc, hr]
  have hcred2 : AuthIndexEndpoint.putCredential w req ⟨some c, some r, none⟩ =
      .ok (AuthIndexEndpoint.putFactorAuth w req c r, []) := rfl
  cases hA : req.user.is_authenticated with
  | false =>
    have h1 := put_eq_of_unauth w req true p hA
    have h2 := put_eq_of_unauth w req true ⟨some c, some r, none⟩ hA
    exact ⟨by simp [h1], h1.trans h2.symm, fun hA2 => absurd hA2 (by decide)⟩
  | true =>
    cases hf : AuthIndexEndpoint.putFactorAuth w req c r with
    | false =>
      rw [hf] at hcred hcred2
      have h1 : AuthIndexEndpoint.put w req true p =
          (.ok (⟨403, .detailIgnore⟩, req), []) := by
        rw [put_eq_of_auth w req p hA, hcred]
        rfl
      have h2 : AuthIndexEndpoint.put w req true ⟨some c, some r, none⟩ =
          (.ok (⟨403, .detailIgnore⟩, req), []) := by
        rw [put_eq_of_auth w req ⟨some c, some r, none⟩ hA, hcred2]
        rfl
      exact ⟨by simp [h1], h1.trans h2.symm, fun _ _ => by rw [h1]⟩
    | true =>
      rw [hf] at hcred hcred2
      have h1 : AuthIndexEndpoint.put w req true p =
          (.ok ((AuthIndexEndpoint.putFinish w req []).1,
            (AuthIndexEndpoint.putFinish w req []).2.1),
            (AuthIndexEndpoint.putFinish w req []).2.2) := by
        rw [put_eq_of_auth w req p hA, hcred]
        rfl
      have h2 : AuthIndexEndpoint.put w req true ⟨some c, some r, none⟩ =
          (.ok ((AuthIndexEndpoint.putFinish w req []).1,
            (AuthIndexEndpoint.putFinish w req []).2.1),
            (AuthIndexEndpoint.putFinish w req []).2.2) := by
        rw [put_eq_of_auth w req ⟨some c, some r, none⟩ hA, hcred2]
        rfl
      refine ⟨?_, h1.trans h2.symm, fun _ hf2 => ?_⟩
      · rw [h1]
        cases hE : req.user.password_expired with
        | true => rw [putFinish_expired w req [] hE]; simp
        | false => rw [putFinish_ok w req [] hE]; simp [get_trace_nil]
      · exact absurd hf2 (by decide)

/-- C4 witness: on the fixture world a payload holding challenge, response
and a password behaves exactly like the same payload without the
password. -/
theorem c4_witness :
    Event.checkPassword ∉
      (AuthIndexEndpoint.put wWorld wReq true ⟨some "x", some "x", some "pw"⟩).2 ∧
    AuthIndexEndpoint.put wWorld wReq true ⟨some "x", some "x", some "pw"⟩ =
      AuthIndexEndpoint.put wWorld wReq true ⟨some "x", some "x", none⟩ ∧
    (wReq.user.is_authenticated = true →
      AuthIndexEndpoint.putFactorAuth wWorld wReq "x" "x" = false →
      (AuthIndexEndpoint.put wWorld wReq true ⟨some "x", some "x", some "pw"⟩).1 =
        .ok (⟨403, .detailIgnore⟩, wReq)) :=
  c4_factor_path_priority wWorld wReq ⟨some "x", some "x", some "pw"⟩ "x" "x" rfl rfl

/-- C5: on an authenticated PUT taking the factor path, a failed interface
lookup, a not-enrolled u2f factor, or an unparseable challenge or response
all make the factor check come out false, and the response is the 403
ignore-coded `InvalidCredentials` shape, not a validation error and not an
uncaught exception. -/
theorem c5_factor_failures_fold_to_invalid_credentials (w : World) (req : Request)
    (p : Payload) (c r : String)
    (hauth : req.user.is_authenticated = true)
    (hc : p.challenge = some c) (hr : p.response = some r)
    (hfail : w.authenticators.get_interface_u2f req.user = none ∨
      (∀ i, w.authenticators.get_interface_u2f req.user = some i →
        i.is_enrolled = false) ∨
      w.json_loads c = none ∨ w.json_loads r = none) :
    AuthIndexEndpoint.putFactorAuth w req c r = false ∧
    AuthIndexEndpoint.put w req true p = (.ok (⟨403, .detailIgnore⟩, req), []) := by
  have hfa : AuthIndexEndpoint.putFactorAuth w req c r = false := by
    unfold AuthIndexEndpoint.putFactorAuth
    cases hI : w.authenticators.get_interface_u2f req.user with
    | none => rfl
    | some i =>
      rcases hfail with h | h | h | h
      · rw [hI] at h
        simp at h
      · simp [h i hI]
      · cases hEn : i.is_enrolled <;> simp [hEn, h]
      · cases hEn : i.is_enrolled with
        | false => simp [hEn]
        | true => cases hJC : w.json_loads c <;> simp [hJC, h]
  have hcred : AuthIndexEndpoint.putCredential w req p = .ok (false, []) := by
    unfold AuthIndexEndpoint.putCredential
    simp [hc, hr, hfa]
  refine ⟨hfa, ?_⟩
  rw [put_eq_of_auth w req p hauth, hcred]
  rfl

/-- Fixture world in which no u2f interface is registered (the registry
lookup raises `LookupError`). -/
def wWorldNoU2f : World :=
  { wWorld with
      authenticators := { wWorld.authenticators with get_interface_u2f := fun _ => none } }

/-- C5 witness: with no registered u2f interface a well-formed factor PUT
gets the 403 ignore response. -/
theorem c5_witness :
    AuthIndexEndpoint.putFactorAuth wWorldNoU2f wReq "x" "x" = false ∧
    AuthIndexEndpoint.put wWorldNoU2f wReq true ⟨some "x", some "x", none⟩ =
      (.ok (⟨403, .detailIgnore⟩, wReq), []) :=
  c5_factor_failures_fold_to_invalid_credentials wWorldNoU2f wReq
    ⟨some "x", some "x", none⟩ "x" "x" rfl rfl rfl (Or.inl rfl)

/-- C6: when the credentials of a PUT verify successfully (on either the
factor path or the password path) but the user's password has expired, the
response is the distinct 403 shape carrying the machine-readable code
`password-expired`. -/
theorem c6_password_expired_after_valid_credentials (w : World) (req : Request)
    (p : Payload)
    (hauth : req.user.is_authenticated = true)
    (hexp : req.user.password_expired = true)
    (hcred : (∃ c r, p.challenge = some c ∧ p.response = some r ∧
        AuthIndexEndpoint.putFactorAuth w req c r = true) ∨
      ((p.challenge = none ∨ p.response = none) ∧
        ∃ pw, p.password = some pw ∧ req.user.check_password pw = true)) :
    (AuthIndexEndpoint.put w req true p).1 =
      .ok (⟨403, .passwordExpiredCode "password-expired"
        "Cannot sign-in with basic auth because password has expired."⟩, req) := by
  have hstep : ∃ ev, AuthIndexEndpoint.putCredential w req p = .ok (true, ev) := by
    rcases hcred with ⟨c, r, hc, hr, hok⟩ | ⟨hnone, pw, hpw, hok⟩
    · exact ⟨[], by unfold AuthIndexEndpoint.putCredential; simp [hc, hr, hok]⟩
    · refine ⟨[.checkPassword], ?_⟩
      unfold AuthIndexEndpoint.putCredential
      rcases hcp : p.challenge with _ | c0
      · simp [hcp, hpw, hok]
      · rcases hnone with h | h
        · rw [hcp] at h
          simp at h
        · simp [hcp, h, hpw, hok]
  obtain ⟨ev, hcredEq⟩ := hstep
  have hput : AuthIndexEndpoint.put w req true p =
      (.ok ((AuthIndexEndpoint.putFinish w req ev).1,
        (AuthIndexEndpoint.putFinish w req ev).2.1),
        (AuthIndexEndpoint.putFinish w req ev).2.2) := by
    rw [put_eq_of_auth w req p hauth, hcredEq]
    rfl
  rw [hput, putFinish_expired w req ev hexp]

/-- Fixture user with an expired password. -/
def wUserExpired : User := { wUser with password_expired := true }

/-- Fixture request bound to the expired-password user. -/
def wReqExpired : Request :=
  { user := wUserExpired, real := { user := wUserExpired, privilege_elevated := false } }

/-- C6 witness: a correct password PUT for the expired-password fixture
user gets the 403 `password-expired` response. -/
theorem c6_witness :
    (AuthIndexEndpoint.put wWorld wReqExpired true ⟨none, none, some "secret"⟩).1 =
      .ok (⟨403, .passwordExpiredCode "password-expired"
        "Cannot sign-in with basic auth because password has expired."⟩, wReqExpired) :=
  c6_password_expired_after_valid_credentials wWorld wReqExpired
    ⟨none, none, some "secret"⟩ rfl rfl
    (Or.inr ⟨Or.inl rfl, "secret", rfl, by decide⟩)

/-- The request state after a successful POST login: `request.user`
refreshed from the session user bound by `auth.login`, the sudo flag
untouched. -/
def postRefresh (req : Request) : Request :=
  { user := req.user,
    real := { user := req.user, privilege_elevated := req.real.privilege_elevated } }

/-- The request state after a successful PUT: refreshed by `auth.login` and
elevated by `grant_sudo_privileges`. -/
def putRefresh (req : Request) : Request :=
  { user := req.user, real := { user := req.user, privilege_elevated := true } }

/-- C7: a 200 success from POST or PUT carries exactly the payload that GET
produces on the refreshed post-login request state: the serialized identity
view with `isSuperuser` copied from the identity's superuser bit. -/
theorem c7_success_payload_equals_get (w : World) :
    (∀ req r st ev, AuthIndexEndpoint.post w req = (r, st, ev) → r.status = 200 →
      r = (AuthIndexEndpoint.get w st).1 ∧
      r.body = .identityView (w.serialize st.real.user st.real.user)
        st.real.user.is_superuser) ∧
    (∀ req valid p r st ev,
      AuthIndexEndpoint.put w req valid p = (.ok (r, st), ev) → r.status = 200 →
      r = (AuthIndexEndpoint.get w st).1 ∧
      r.body = .identityView (w.serialize st.real.user st.real.user)
        st.real.user.is_superuser) := by
  constructor
  · intro req r st ev hpost h200
    cases hA : req.user.is_authenticated with
    | false =>
      have heq : AuthIndexEndpoint.post w req = (⟨400, .empty⟩, req, []) := by
        unfold AuthIndexEndpoint.post
        simp [hA]
      rw [heq] at hpost
      simp only [Prod.mk.injEq] at hpost
      rw [← hpost.1] at h200
      exact absurd h200 (by decide)
    | true =>
      cases h2 : w.authenticators.user_has_2fa req.user with
      | true =>
        have heq : AuthIndexEndpoint.post w req =
            (⟨403, .twoFaRequired true "Cannot sign-in with basic auth when 2fa is enabled."⟩,
              req, []) := by
          unfold AuthIndexEndpoint.post
          simp [hA, h2]
        rw [heq] at hpost
        simp only [Prod.mk.injEq] at hpost
        rw [← hpost.1] at h200
        exact absurd h200 (by decide)
      | false =>
        cases hE : req.user.password_expired with
        | true =>
          have heq : AuthIndexEndpoint.post w req =
              (⟨403, .passwordExpiredMsg
                  "Cannot sign-in with basic auth because password has expired."⟩,
                req, [.login]) := by
            unfold AuthIndexEndpoint.post auth_login
            simp [hA, h2, hE]
          rw [heq] at hpost
          simp only [Prod.mk.injEq] at hpost
          rw [← hpost.1] at h200
          exact absurd h200 (by decide)
        | false =>
          have heq : AuthIndexEndpoint.post w req =
              ((AuthIndexEndpoint.get w (postRefresh req)).1, postRefresh req,
                [.login] ++ (AuthIndexEndpoint.get w (postRefresh req)).2) := by
            unfold AuthIndexEndpoint.post auth_login postRefresh
            simp [hA, h2, hE]
          rw [get_eq_of_auth w (postRefresh req) hA] at heq
          rw [heq] at hpost
          simp only [Prod.mk.injEq] at hpost
          obtain ⟨hr1, hst, -⟩ := hpost
          subst hst
          rw [← hr1]
          rw [get_eq_of_auth w (postRefresh req) hA]
          exact ⟨rfl, rfl⟩
  · intro req valid p r st ev hput h200
    cases hA : req.user.is_authenticated with
    | false =>
      rw [put_eq_of_unauth w req valid p hA] at hput
      simp only [Prod.mk.injEq, Except.ok.injEq] at hput
      rw [← hput.1.1] at h200
      exact absurd h200 (by decide)
    | true =>
      cases valid with
      | false =>
        rw [put_eq_of_invalid w req p hA] at hput
        simp only [Prod.mk.injEq, Except.ok.injEq] at hput
        rw [← hput.1.1] at h200
        exact absurd h200 (by decide)
      | true =>
        cases hC : AuthIndexEndpoint.putCredential w req p with
        | error e2 =>
          have heq : AuthIndexEndpoint.put w req true p = (.error e2, []) := by
            rw [put_eq_of_auth w req p hA, hC]
          rw [heq] at hput
          simp at hput
        | ok be =>
          obtain ⟨b, ev2⟩ := be
          cases b with
          | false =>
            have heq : AuthIndexEndpoint.put w req true p =
                (.ok (⟨403, .detailIgnore⟩, req), ev2) := by
              rw [put_eq_of_auth w req p hA, hC]
              rfl
            rw [heq] at hput
            simp only [Prod.mk.injEq, Except.ok.injEq] at hput
            rw [← hput.1.1] at h200
            exact absurd h200 (by decide)
          | true =>
            have heq : AuthIndexEndpoint.put w req true p =
                (.ok ((AuthIndexEndpoint.putFinish w req ev2).1,
                  (AuthIndexEndpoint.putFinish w req ev2).2.1),
                  (AuthIndexEndpoint.putFinish w req ev2).2.2) := by
              rw [put_eq_of_auth w req p hA, hC]
              rfl
            cases hE : req.user.password_expired with
            | true =>
              rw [putFinish_expired w req ev2 hE] at heq
              rw [heq] at hput
              simp only [Prod.mk.injEq, Except.ok.injEq] at hput
              rw [← hput.1.1] at h200
              exact absurd h200 (by decide)
            | false =>
              rw [putFinish_ok w req ev2 hE,
                get_eq_of_auth w
                  { user := req.user, real := { user := req.user, privilege_elevated := true } }
                  hA] at heq
              rw [heq] at hput
              simp only [Prod.mk.injEq, Except.ok.injEq] at hput
              obtain ⟨⟨hr1, hst⟩, -⟩ := hput
              subst hst
              rw [← hr1]
              rw [get_eq_of_auth w
                { user := req.user, real := { user := req.user, privilege_elevated := true } }
                hA]
              exact ⟨rfl, rfl⟩

/-- C7 witness: the successful fixture POST returns the very GET payload on
the refreshed state. -/
theorem c7_witness :
    (⟨200, .identityView "view" false⟩ : Response) =
      (AuthIndexEndpoint.get wWorld wReq).1 ∧
    (⟨200, .identityView "view" false⟩ : Response).body =
      .identityView (wWorld.serialize wReq.real.user wReq.real.user)
        wReq.real.user.is_superuser :=
  (c7_success_payload_equals_get wWorld).1 wReq ⟨200, .identityView "view" false⟩
    wReq [Event.login] rfl rfl

/-- C9: on the PUT factor path, a `ValueError` or `LookupError` raised by
`validate_response` itself is swallowed by the same `try` block: the factor
check comes out false and the response is the 403 ignore-coded
`InvalidCredentials` shape, with no exception propagating. -/
theorem c9_validate_response_exceptions_fail_closed (w : World) (req : Request)
    (p : Payload) (c r : String) (i : U2fInterface) (jc jr : Json)
    (hauth : req.user.is_authenticated = true)
    (hc : p.challenge = some c) (hr : p.response = some r)
    (hi : w.authenticators.get_interface_u2f req.user = some i)
    (he : i.is_enrolled = true)
    (hjc : w.json_loads c = some jc) (hjr : w.json_loads r = some jr)
    (hex : i.validate_response req jc jr = .valueError ∨
      i.validate_response req jc jr = .lookupError) :
    AuthIndexEndpoint.putFactorAuth w req c r = false ∧
    AuthIndexEndpoint.put w req true p = (.ok (⟨403, .detailIgnore⟩, req), []) := by
  have hfa : AuthIndexEndpoint.putFactorAuth w req c r = false := by
    unfold AuthIndexEndpoint.putFactorAuth
    rw [hi]
    rcases hex with h | h <;> simp [he, hjc, hjr, h]
  have hcred : AuthIndexEndpoint.putCredential w req p = .ok (false, []) := by
    unfold AuthIndexEndpoint.putCredential
    simp [hc, hr, hfa]
  refine ⟨hfa, ?_⟩
  rw [put_eq_of_auth w req p hauth, hcred]
  rfl

/-- Fixture u2f interface whose `validate_response` raises `ValueError`. -/
def wInterfaceVErr : U2fInterface :=
  { is_enrolled := true, validate_response := fun _ _ _ => .valueError }

/-- Fixture world registering the `ValueError`-raising interface. -/
def wWorldVErr : World :=
  { wWorld with
      authenticators :=
        { wWorld.authenticators with get_interface_u2f := fun _ => some wInterfaceVErr } }

/-- C9 witness: the `ValueError`-raising fixture interface produces the 403
ignore response on a parseable factor PUT. -/
theorem c9_witness :
    AuthIndexEndpoint.putFactorAuth wWorldVErr wReq "x" "x" = false ∧
    AuthIndexEndpoint.put wWorldVErr wReq true ⟨some "x", some "x", none⟩ =
      (.ok (⟨403, .detailIgnore⟩, wReq), []) :=
  c9_validate_response_exceptions_fail_closed wWorldVErr wReq
    ⟨some "x", some "x", none⟩ "x" "x" wInterfaceVErr "x" "x"
    rfl rfl rfl rfl rfl rfl rfl (Or.inl rfl)

/-- C10: a validator-accepted PUT payload that carries neither the
`challenge`/`response` pair nor a `password` key makes the password branch
raise an uncaught `KeyError` on an authenticated session, instead of any
structured response; conversely, whenever every accepted payload matches
one of the two variants, no uncaught exception is possible. -/
theorem c10_unguarded_password_access (w : World) :
    (∀ req p, req.user.is_authenticated = true →
      (p.challenge = none ∨ p.response = none) → p.password = none →
      AuthIndexEndpoint.put w req true p = (.error (.keyError "password"), [])) ∧
    (∀ req valid p,
      ((p.challenge.isSome = true ∧ p.response.isSome = true) ∨
        p.password.isSome = true) →
      ∀ e, (AuthIndexEndpoint.put w req valid p).1 ≠ .error e) := by
  constructor
  · intro req p hauth hmiss hpw
    have hcred : AuthIndexEndpoint.putCredential w req p =
        .error (.keyError "password") :=
      (putCredential_error_iff w req p (.keyError "password")).2 ⟨rfl, hpw, hmiss⟩
    rw [put_eq_of_auth w req p hauth, hcred]
  · intro req valid p hv e
    cases hA : req.user.is_authenticated with
    | false =>
      rw [put_eq_of_unauth w req valid p hA]
      simp
    | true =>
      cases valid with
      | false =>
        rw [put_eq_of_invalid w req p hA]
        simp
      | true =>
        cases hC : AuthIndexEndpoint.putCredential w req p with
        | error e2 =>
          rw [putCredential_error_iff w req p e2] at hC
          obtain ⟨-, hpw, hmiss⟩ := hC
          rcases hv with ⟨hv1, hv2⟩ | hv3
          · rcases hmiss with h | h
            · rw [h] at hv1
              exact absurd hv1 (by decide)
            · rw [h] at hv2
              exact absurd hv2 (by decide)
          · rw [hpw] at hv3
            exact absurd hv3 (by decide)
        | ok be =>
          obtain ⟨b, ev2⟩ := be
          cases b with
          | false =>
            have heq : AuthIndexEndpoint.put w req true p =
                (.ok (⟨403, .detailIgnore⟩, req), ev2) := by
              rw [put_eq_of_auth w req p hA, hC]
              rfl
            rw [heq]
            simp
          | true =>
            have heq : AuthIndexEndpoint.put w req true p =
                (.ok ((AuthIndexEndpoint.putFinish w req ev2).1,
                  (AuthIndexEndpoint.putFinish w req ev2).2.1),
                  (AuthIndexEndpoint.putFinish w req ev2).2.2) := by
              rw [put_eq_of_auth w req p hA, hC]
              rfl
            rw [heq]
            simp

/-- C10 witness: an accepted empty payload makes the fixture PUT raise the
`KeyError` on `password`. -/
theorem c10_witness :
    AuthIndexEndpoint.put wWorld wReq true ⟨none, none, none⟩ =
      (.error (.keyError "password"), []) :=
  (c10_unguarded_password_access wWorld).1 wReq ⟨none, none, none⟩ rfl
    (Or.inl rfl) rfl

/-- C8: DELETE always responds 204 with an empty body, and afterwards both
`request.user` and the session's bound user are anonymous
(`is_authenticated = false`), from any prior state. -/
theorem c8_delete_idempotent_anonymous (req : Request) :
    (AuthIndexEndpoint.delete req).1 = ⟨204, .empty⟩ ∧
    (AuthIndexEndpoint.delete req).2.1.user.is_authenticated = false ∧
    (AuthIndexEndpoint.delete req).2.1.real.user.is_authenticated = false := by
  refine ⟨rfl, rfl, rfl⟩

end Sentry
